import Mathlib

/-!
Verification of the mindraw command-transport code: the socket server of the Blender addon
 (`src/render/addon.py`) and the connection
manager of the MCP client (`src/render/server.py`), shallowly embedded in Lean.

JSON values are modelled by an inductive `Value` (numbers as rationals;
no claim below depends on float rounding).  Python exceptions are
modelled by `Except String`, carrying `str(e)`.  Operations on external
state (the Blender scene via `bpy`, the filesystem, the real sockets)
are modelled by oracles collected in `BlenderEnv`; everything that the
Python code computes from its own inputs is translated directly.
-/

namespace Mindraw

/-- A JSON value as produced by `json.loads` / consumed by `json.dumps`.
Objects are association lists of string keys (as in the Python dicts the
code builds); numbers are rationals. -/
inductive Value where
  | vnull : Value
  | vbool : Bool → Value
  | vnum  : ℚ → Value
  | vstr  : String → Value
  | varr  : List Value → Value
  | vobj  : List (String × Value) → Value

/-- Python type name of a value (used in `AttributeError` / `TypeError`
texts).  A rational with denominator 1 prints as `int`; no claim below
depends on distinguishing JSON ints from floats. -/
def pyTypeName : Value → String
  | .vnull => "NoneType"
  | .vbool _ => "bool"
  | .vnum q => if q.den = 1 then "int" else "float"
  | .vstr _ => "str"
  | .varr _ => "list"
  | .vobj _ => "dict"

/-- Python `str(v)` as used inside f-strings.  Only `None`, booleans and strings
are ever formatted by the claims below; the numeric and container
renderings are abbreviated (marked) and never reached by any theorem. -/
def pyStr : Value → String
  | .vnull => "None"
  | .vbool b => if b then "True" else "False"
  | .vnum q => if q.den = 1 then toString q.num else toString q
  | .vstr s => s
  | .varr _ => "<list>"
  | .vobj _ => "<dict>"

/-- Python `str(command)` where `command = request_data.get("command")`:
a missing key (`None`) prints as `None`, exactly like a JSON `null`. -/
def pyStrOpt : Option Value → String
  | none => "None"
  | some v => pyStr v

/-- Python truthiness (`if not x`). -/
def pyTruthy : Value → Bool
  | .vnull => false
  | .vbool b => b
  | .vnum q => if q = 0 then false else true
  | .vstr s => if s = "" then false else true
  | .varr xs => !xs.isEmpty
  | .vobj fs => !fs.isEmpty

/-- Lookup in a Python dict built by `json.loads` (duplicate keys
collapse to the last occurrence, as in CPython). -/
def dictGet (fs : List (String × Value)) (k : String) : Option Value :=
  ((fs.filter (fun p => p.1 == k)).getLast?).map (fun p => p.2)

/-- Whether a dict has a key. -/
def hasKey (fs : List (String × Value)) (k : String) : Bool :=
  fs.any (fun p => p.1 == k)

/-- Python `container.get(k)` / `container.get(k, default)` — only dicts have
`.get`; anything else raises `AttributeError`. -/
def pyGet (container : Value) (k : String) : Except String (Option Value) :=
  match container with
  | .vobj fs => .ok (dictGet fs k)
  | other =>
      .error ("\x27" ++ pyTypeName other ++ "\x27 object has no attribute \x27get\x27")

/-- Python `container[k]` with a string key.  `str(KeyError(k))` is the quoted
key, as in CPython. -/
def pySubscript (container : Value) (k : String) : Except String Value :=
  match container with
  | .vobj fs =>
      match dictGet fs k with
      | some v => .ok v
      | none => .error ("\x27" ++ k ++ "\x27")
  | other =>
      .error ("\x27" ++ pyTypeName other ++ "\x27 object is not subscriptable")

/-- Python `k in container` for a string `k`: key test on dicts, substring test
on strings, `==`-membership on lists (a string equals no non-string, so
only string elements can match); other types raise `TypeError`. -/
def pyContains (container : Value) (k : String) : Except String Bool :=
  match container with
  | .vobj fs => .ok (hasKey fs k)
  | .vstr s => .ok (!((s.splitOn k).length == 1) || k == "")
  | .varr xs => .ok (xs.any (fun v => match v with | .vstr t => t == k | _ => false))
  | other =>
      .error ("argument of type \x27" ++ pyTypeName other ++ "\x27 is not iterable")

/-- Python `all(k in payload for k in keys)`. -/
def pyAllContains (payload : Value) (keys : List String) : Except String Bool :=
  match keys with
  | [] => .ok true
  | k :: ks => do
      let b ← pyContains payload k
      if b then pyAllContains payload ks else pure false

/-- Python `len(x)`. -/
def pyLen : Value → Except String ℕ
  | .varr xs => .ok xs.length
  | .vstr s => .ok s.length
  | .vobj fs => .ok fs.length
  | other =>
      .error ("object of type \x27" ++ pyTypeName other ++ "\x27 has no len()")

/-- Python `repr` of a list of strings, as interpolated by an f-string
(for example `[\x27layer_name\x27, \x27color\x27, \x27points\x27]`). -/
def pyListRepr (keys : List String) : String :=
  "[" ++ String.intercalate ", " (keys.map (fun k => "\x27" ++ k ++ "\x27")) ++ "]"

/-- A numeric value usable in arithmetic (`+`, `*` with floats): numbers
and booleans (Python bools are ints); everything else raises
`TypeError`. -/
def pyNum : Value → Except String ℚ
  | .vnum q => .ok q
  | .vbool b => .ok (if b then 1 else 0)
  | other =>
      .error ("unsupported operand type: \x27" ++ pyTypeName other ++ "\x27")

/-- A value usable as the argument of `range(... + 1)`: an integer
(or a bool); floats and non-numbers raise `TypeError`. -/
def pyToInt : Value → Except String ℤ
  | .vnum q => if q.den = 1 then .ok q.num else
      .error "\x27float\x27 object cannot be interpreted as an integer"
  | .vbool b => .ok (if b then 1 else 0)
  | other =>
      .error ("\x27" ++ pyTypeName other ++ "\x27 object cannot be interpreted as an integer")

/-- Python `range(n)` for an integer bound (empty when `n ≤ 0`). -/
def pyRange (n : ℤ) : List ℤ :=
  (List.range n.toNat).map Int.ofNat

/-- Python `seq[i]` for a nonnegative index; only lists are indexable here
(the default circle center `(0, 0, 0)` is modelled as a list — nothing
below distinguishes tuples from lists). -/
def pyIndex (container : Value) (i : ℕ) : Except String Value :=
  match container with
  | .varr xs =>
      match xs.get? i with
      | some v => .ok v
      | none => .error "list index out of range"
  | other =>
      .error ("\x27" ++ pyTypeName other ++ "\x27 object is not subscriptable")

/-- The float functions of the `math` module, abstracted: no claim below
depends on the values of `math.pi`, `math.cos` or `math.sin`, only on
the structure of the point list they populate. -/
structure MathModel where
  pi : ℚ
  cos : ℚ → ℚ
  sin : ℚ → ℚ

/-- Oracles for everything the handlers of the addon do to external state
(the Blender scene via `bpy`, `exec`, the renderer, the filesystem).
Per the spec these operations are external collaborators; their faults
surface as Python exceptions, modelled by the `Except` results. -/
structure BlenderEnv where
  /-- Outcome of `exec(python_code, ...)` plus the captured stdout
  (`handle_execute_code`, addon.py lines 74-82). -/
  exec_output : Value → Except String String
  /-- The scene-info dict (`handle_get_scene_info`, lines 88-101). -/
  scene_info : List (String × Value)
  /-- Python `bpy.app.version_string` (`handle_get_blender_info`, line 107). -/
  blender_version : String
  /-- The context-info dict (`handle_get_blender_context`, lines 112-123). -/
  context_info : List (String × Value)
  /-- The Grease-Pencil drawing section of `handle_draw_stroke`
  (lines 212-247: object/layer/material/stroke creation and point
  placement).  These act on Blender state and may raise (e.g. the
  `RuntimeError` for a missing frame, type errors from `bpy`
  assignments); the oracle maps the payload to that outcome. -/
  draw_effects : Value → Except String Unit
  /-- The render section of `handle_render_image` (lines 311-334:
  scene mutation, output-path resolution via `tempfile`/`os`, and
  `bpy.ops.render.render`), yielding the output path. -/
  render_result : Value → Except String String
  /-- The float constants and functions of the `math` module. -/
  math : MathModel

/-- Python `handle_execute_code` (addon.py lines 68-85). -/
def handle_execute_code (env : BlenderEnv) (payload : Value) :
    Except String (List (String × Value)) := do
  let python_code := (← pyGet payload "code").getD .vnull
  if !pyTruthy python_code then
    throw "Payload for \x27execute_code\x27 must contain a \x27code\x27 field."
  let captured ← env.exec_output python_code
  let output := if captured = "" then "Script executed successfully (no output)." else captured
  pure [("output", .vstr output)]

/-- Python `handle_get_scene_info` (addon.py lines 88-101). -/
def handle_get_scene_info (env : BlenderEnv) (_payload : Value) :
    Except String (List (String × Value)) :=
  .ok env.scene_info

/-- Python `handle_get_blender_info` (addon.py lines 104-109). -/
def handle_get_blender_info (env : BlenderEnv) (_payload : Value) :
    Except String (List (String × Value)) :=
  .ok [("blender_version", .vstr env.blender_version)]

/-- Python `handle_get_blender_context` (addon.py lines 112-123). -/
def handle_get_blender_context (env : BlenderEnv) (_payload : Value) :
    Except String (List (String × Value)) :=
  .ok env.context_info

/-- The required-keys list of `handle_draw_stroke` (addon.py line 206). -/
def drawStrokeRequiredKeys : List String := ["layer_name", "color", "points"]

/-- The `ValueError` text raised by `handle_draw_stroke` when a required
key is missing (addon.py line 208). -/
def drawStrokeRequiredMsg : String :=
  "Payload for \x27draw_stroke\x27 must contain " ++ pyListRepr drawStrokeRequiredKeys ++ "."

/-- Python `handle_draw_stroke` (addon.py lines 203-251): validates required
keys, short-circuits on a falsy `points` value, performs the drawing
(external, via `env.draw_effects`) and returns the message dict built
from `len(points)` and `layer_name`. -/
def handle_draw_stroke (env : BlenderEnv) (payload : Value) :
    Except String (List (String × Value)) := do
  let allPresent ← pyAllContains payload drawStrokeRequiredKeys
  if !allPresent then throw drawStrokeRequiredMsg
  let points ← pySubscript payload "points"
  if !pyTruthy points then
    pure [("status", .vstr "success"),
          ("message", .vstr "No points provided, nothing to draw.")]
  else do
    let _ ← env.draw_effects payload
    let n ← pyLen points
    let layerName ← pySubscript payload "layer_name"
    pure [("message", .vstr ("Stroke with " ++ toString n ++
      " points drawn on layer \x27" ++ pyStr layerName ++ "\x27."))]

/-- The required-keys list of `handle_draw_circle` (addon.py line 257). -/
def drawCircleRequiredKeys : List String := ["layer_name", "color", "radius"]

/-- The `ValueError` text raised by `handle_draw_circle` when a required
key is missing (addon.py line 259). -/
def drawCircleRequiredMsg : String :=
  "Payload for \x27draw_circle\x27 must contain " ++ pyListRepr drawCircleRequiredKeys ++ "."

/-- The body of the point-generation loop of `handle_draw_circle`
(addon.py lines 270-277) for index `i`: `angle = 2*pi*i/segments`
(a `ZeroDivisionError` when `segments == 0`, since the loop body runs
for `i = 0`), then `x`, `y`, `z` from `center` and `radius`. -/
def circlePoint (M : MathModel) (center radius pressure strength : Value)
    (segments : ℤ) (i : ℤ) : Except String Value := do
  if segments = 0 then throw "float division by zero"
  let angle : ℚ := 2 * M.pi * (i : ℚ) / (segments : ℚ)
  let c0 ← pyIndex center 0
  let cx ← pyNum c0
  let r ← pyNum radius
  let x := cx + r * M.cos angle
  let c1 ← pyIndex center 1
  let y ← pyNum c1
  let c2 ← pyIndex center 2
  let cz ← pyNum c2
  let z := cz + r * M.sin angle
  pure (.vobj [("x", .vnum x), ("y", .vnum y), ("z", .vnum z),
               ("pressure", pressure), ("strength", strength)])

/-- The full generated point list of `handle_draw_circle`
(`for i in range(segments + 1)`, addon.py lines 269-277). -/
def circlePoints (M : MathModel) (center radius pressure strength : Value)
    (segments : ℤ) : Except String (List Value) :=
  (pyRange (segments + 1)).mapM (circlePoint M center radius pressure strength segments)

/-- Python `handle_draw_circle` (addon.py lines 254-288): validates required
keys, reads parameters (with defaults), generates `segments + 1` circle
points, builds the stroke payload and delegates to
`handle_draw_stroke`. -/
def handle_draw_circle (env : BlenderEnv) (payload : Value) :
    Except String (List (String × Value)) := do
  let allPresent ← pyAllContains payload drawCircleRequiredKeys
  if !allPresent then throw drawCircleRequiredMsg
  let center := (← pyGet payload "center").getD (.varr [.vnum 0, .vnum 0, .vnum 0])
  let radius ← pySubscript payload "radius"
  let segmentsV := (← pyGet payload "segments").getD (.vnum 64)
  let pressure := (← pyGet payload "pressure").getD (.vnum 1)
  let strength := (← pyGet payload "strength").getD (.vnum 1)
  let segments ← pyToInt segmentsV
  let points ← circlePoints env.math center radius pressure strength segments
  let strokePayload : Value := .vobj
    [("layer_name", ← pySubscript payload "layer_name"),
     ("color", ← pySubscript payload "color"),
     ("points", .varr points),
     ("clear_layer", (← pyGet payload "clear_layer").getD (.vbool false))]
  handle_draw_stroke env strokePayload

/-- The supported render formats (addon.py line 305). -/
def supportedFormats : List String := ["PNG", "JPEG", "BMP", "TARGA", "OPEN_EXR", "TIFF"]

/-- Python `str.upper()`; non-strings raise `AttributeError`. -/
def pyUpper : Value → Except String String
  | .vstr s => .ok s.toUpper
  | other =>
      .error ("\x27" ++ pyTypeName other ++ "\x27 object has no attribute \x27upper\x27")

/-- Python `handle_render_image` (addon.py lines 291-337): reads parameters,
validates the file format, performs the render (external, via
`env.render_result`) and returns the result dict. -/
def handle_render_image (env : BlenderEnv) (payload : Value) :
    Except String (List (String × Value)) := do
  let _output_path := (← pyGet payload "output_path")
  let _resolution_x := (← pyGet payload "resolution_x")
  let _resolution_y := (← pyGet payload "resolution_y")
  let file_format := (← pyGet payload "file_format").getD (.vstr "PNG")
  let _frame := (← pyGet payload "frame")
  let ff ← pyUpper file_format
  if !(supportedFormats.contains ff) then
    throw ("Unsupported file format: \x27" ++ ff ++ "\x27. Supported formats are: " ++
      String.intercalate ", " supportedFormats)
  let path ← env.render_result payload
  pure [("status", .vstr "success"), ("image_path", .vstr path)]

/-! ## Session handler (`handle_client`, addon.py lines 352-400) -/

/-- The `COMMAND_MAP` registry (addon.py lines 341-349), as a partial
lookup from command name to handler. -/
def COMMAND_MAP (env : BlenderEnv) :
    String → Option (Value → Except String (List (String × Value)))
  | "execute_code" => some (handle_execute_code env)
  | "get_scene_info" => some (handle_get_scene_info env)
  | "get_blender_info" => some (handle_get_blender_info env)
  | "get_blender_context" => some (handle_get_blender_context env)
  | "draw_stroke" => some (handle_draw_stroke env)
  | "draw_circle" => some (handle_draw_circle env)
  | "render_image" => some (handle_render_image env)
  | _ => none

/-- Python `command in COMMAND_MAP` where `command` may be any JSON value or
absent: only a string key can be a member of the dict. -/
def commandLookup (env : BlenderEnv) :
    Option Value → Option (Value → Except String (List (String × Value)))
  | some (.vstr s) => COMMAND_MAP env s
  | _ => none

/-- The error Response Envelope `{"status": "error", "error_message": m}`. -/
def errEnv (m : String) : Value :=
  .vobj [("status", .vstr "error"), ("error_message", .vstr m)]

/-- The success Response Envelope `{"status": "success", "data": d}`. -/
def okEnv (d : List (String × Value)) : Value :=
  .vobj [("status", .vstr "success"), ("data", .vobj d)]

/-- The dispatch step of `handle_client` (addon.py lines 377-392): a
result of a registered handler is wrapped as a success envelope, a raised
exception (including the `ValueError` for an unknown command) becomes an
error envelope carrying `str(e)`. -/
def dispatch (env : BlenderEnv) (command : Option Value) (payload : Value) : Value :=
  match commandLookup env command with
  | some handler =>
      match handler payload with
      | .ok d => okEnv d
      | .error m => errEnv m
  | none => errEnv ("Unknown command: \x27" ++ pyStrOpt command ++ "\x27")

/-- One received chunk, after the empty-read check: either bytes that
fail `json.loads`, or the parsed JSON value. -/
inductive InMsg where
  | badJson : InMsg
  | json : Value → InMsg

/-- Processing of one received message by `handle_client` (addon.py
lines 369-392): decode, extract `command` and `payload` (defaulting the
payload to `{}`), dispatch; every error is converted to an error
envelope.  A parsed non-object raises `AttributeError` at
`request_data.get`, caught by the generic handler. -/
def processMessage (env : BlenderEnv) : InMsg → Value
  | .badJson => errEnv "Invalid JSON format received."
  | .json v =>
      match v with
      | .vobj fields =>
          dispatch env (dictGet fields "command") ((dictGet fields "payload").getD (.vobj []))
      | other =>
          errEnv ("\x27" ++ pyTypeName other ++ "\x27 object has no attribute \x27get\x27")

/-- The session loop of `handle_client` (addon.py lines 360-395) over
the messages received while `is_running` held and before the client
disconnected (the empty read that ends the loop is not an element):
each message yields exactly one response, sent before the next read. -/
def handle_client (env : BlenderEnv) (msgs : List InMsg) : List Value :=
  msgs.map (processMessage env)

/-! ## Command Server lifecycle (addon.py lines 22-65, 1364-1391) -/

/-- The module-level `server_socket` global (addon.py line 23): declared
`None` and never assigned again anywhere in the module. -/
def server_socket : Option Unit := none

/-- Outcome of `s.bind((HOST, PORT))` in the accept thread. -/
inductive BindOutcome where
  | ok : BindOutcome
  | fail : String → BindOutcome

/-- One iteration of the accept loop (addon.py lines 44-60): a 1-second
accept timeout (the cancellation check), an accepted connection carrying
the messages of its session, or another accept error. -/
inductive AcceptEvent where
  | timeout : AcceptEvent
  | conn : List InMsg → AcceptEvent
  | acceptErr : String → AcceptEvent

/-- Result of running the accept-thread function to completion: whether
an exception escaped it (never — both the bind failure and accept
errors are caught), and the printed log. -/
structure ThreadRun where
  raised : Bool
  log : List String

/-- The accept loop (addon.py lines 44-60) over the iteration outcomes
observed while `is_running` held: a timeout continues, a connection is
handed synchronously to `handle_client` (which never raises), another
error is logged and breaks the loop. -/
def acceptLoop (env : BlenderEnv) : List AcceptEvent → List String
  | [] => []
  | .timeout :: rest => acceptLoop env rest
  | .conn msgs :: rest =>
      ("[MindDraw] Connected by peer" ::
        (handle_client env msgs).map (fun _ => "[MindDraw] response sent")) ++ acceptLoop env rest
  | .acceptErr m :: _ => ["[MindDraw] Error accepting connection: " ++ m]

/-- Python `socket_server_thread` (addon.py lines 28-65): binds and listens,
then runs the accept loop; a bind failure (like any other exception in
the body) is caught by the outer `except` and only printed — the thread
function itself never raises. -/
def socket_server_thread_run (env : BlenderEnv) (bind : BindOutcome)
    (iters : List AcceptEvent) : ThreadRun :=
  match bind with
  | .fail m =>
      { raised := false
        log := ["[MindDraw] Socket server error: " ++ m,
                "[MindDraw] Socket server stopped"] }
  | .ok =>
      { raised := false
        log := ("[MindDraw] Socket server listening on localhost:8765" ::
                acceptLoop env iters) ++ ["[MindDraw] Socket server stopped"] }

/-- Result of `register()`: whether it raised (`Except.error`) or
returned normally carrying the final `is_running` flag, together with
the (asynchronous) behaviour of the spawned accept thread. -/
structure RegisterRun where
  outcome : Except String Bool
  thread : ThreadRun

/-- Python `register()` (addon.py lines 1364-1374): sets `is_running := true`,
spawns the daemon accept thread and returns at once.  Nothing in its own
body depends on the bind outcome, which only the spawned thread
observes. -/
def register (env : BlenderEnv) (bind : BindOutcome) (iters : List AcceptEvent) :
    RegisterRun :=
  { outcome := .ok true
    thread := socket_server_thread_run env bind iters }

/-- Observable steps of `unregister()`.  `closeListeningSocket` is in
the vocabulary so the stop sequence claimed by the spec can be stated; the
implementation never performs it (the listening socket lives inside the
`with` block of the accept thread and `server_socket` is never assigned). -/
inductive UnregEvent where
  | setRunningFalse : UnregEvent
  | joinThread : ℕ → UnregEvent
  | closeListeningSocket : UnregEvent
  | warnNotStopped : UnregEvent
deriving DecidableEq

/-- Python `unregister()` (addon.py lines 1377-1391): sets `is_running := false`;
if the accept thread is alive, joins it with a 2-second timeout and
prints a warning when it is still alive afterwards; always returns
normally (`true` in the second component). -/
def unregister (threadAlive stopsInTime : Bool) : List UnregEvent × Bool :=
  ([UnregEvent.setRunningFalse] ++
    (if threadAlive then
      [UnregEvent.joinThread 2] ++ (if stopsInTime then [] else [UnregEvent.warnNotStopped])
     else []), true)

/-! ## Connection Manager (client side, server.py) -/

/-- The connection state of the client (server.py lines 9-10): the
`blender_socket` handle (here: whether one exists) and the
`socket_connected` flag, both guarded by `socket_lock`. -/
structure ConnState where
  socket_connected : Bool
  blender_socket : Bool
deriving DecidableEq

/-- What `blender_socket.recv(4096).decode()` produced when the round
trip got that far: an empty string, bytes that fail `json.loads`, or a
parsed JSON value. -/
inductive WireResponse where
  | empty : WireResponse
  | badJson : WireResponse
  | json : Value → WireResponse

/-- Fate of the send/receive round trip inside the `try` block of
`_send_blender_command`: a `socket.timeout`, another socket exception
(connection reset etc., `str(e)` attached), or a received response. -/
inductive RecvOutcome where
  | timeout : RecvOutcome
  | sockErr : String → RecvOutcome
  | recvOk : WireResponse → RecvOutcome

/-- Python `connect_to_blender` (server.py lines 14-52), with the
overall outcome of the retry loop supplied by the environment: on success the socket
exists and `socket_connected` is set under the lock; on failure the
socket is closed and cleared while the flag is left as it was. -/
def connect_to_blender (succeeds : Bool) (st : ConnState) : ConnState × Bool :=
  if succeeds then ({ socket_connected := true, blender_socket := true }, true)
  else ({ st with blender_socket := false }, false)

/-- Python `ensure_connection` (server.py lines 74-82): reconnects when the
flag is down or the socket is gone, otherwise a no-op. -/
def ensure_connection (connectSucceeds : Bool) (st : ConnState) : ConnState × Bool :=
  if !st.socket_connected || !st.blender_socket then
    connect_to_blender connectSucceeds st
  else (st, true)

/-- Python `_send_blender_command` (server.py lines 92-144): ensure the
connection, then under `socket_lock` send the Command Envelope and
receive the response.  Every failure path returns a synthesized error
envelope; only the `socket.timeout` and generic-exception handlers clear
`socket_connected`. -/
def send_blender_command (connectSucceeds : Bool) (st : ConnState)
    (out : RecvOutcome) : ConnState × Value :=
  match ensure_connection connectSucceeds st with
  | (st1, false) => (st1, errEnv "Blender connection failed.")
  | (st1, true) =>
    if !st1.blender_socket then
      (st1, errEnv "No active socket connection.")
    else
      match out with
      | .timeout =>
          ({ st1 with socket_connected := false },
           errEnv "Timeout: Blender addon did not respond.")
      | .sockErr m =>
          ({ st1 with socket_connected := false }, errEnv m)
      | .recvOk .empty =>
          (st1, errEnv "Received empty response from Blender.")
      | .recvOk .badJson =>
          (st1, errEnv "Failed to decode JSON response from Blender.")
      | .recvOk (.json v) => (st1, v)

/-- Observable events of one `_send_blender_command` call, for the
lock-ordering claims. -/
inductive SendEvent where
  | ensureConnectionCall : SendEvent
  | lockAcquire : SendEvent
  | sendBytes : SendEvent
  | recvBytes : SendEvent
  | parseResponse : SendEvent
  | lockRelease : SendEvent
deriving DecidableEq

/-- The event trace of `_send_blender_command` (server.py lines
103-144), mirroring its statement order: `ensure_connection()` is the
first statement (line 103, before the lock); `with socket_lock:`
(line 107) then guards the send, receive and `json.loads`; on a
`socket.timeout` or generic exception the exit of the `with` block releases
the lock before the handler briefly retakes it to clear the flag.
the internal use of the lock by `ensure_connection` is kept opaque inside
its event. -/
def sendCommandTrace (connectSucceeds : Bool) (st : ConnState)
    (out : RecvOutcome) : List SendEvent :=
  match ensure_connection connectSucceeds st with
  | (_, false) => [SendEvent.ensureConnectionCall]
  | (st1, true) =>
    if !st1.blender_socket then
      [SendEvent.ensureConnectionCall, SendEvent.lockAcquire, SendEvent.lockRelease]
    else
      SendEvent.ensureConnectionCall :: SendEvent.lockAcquire ::
      SendEvent.sendBytes :: SendEvent.recvBytes ::
      (match out with
       | .timeout =>
           [SendEvent.lockRelease, SendEvent.lockAcquire, SendEvent.lockRelease]
       | .sockErr _ =>
           [SendEvent.lockRelease, SendEvent.lockAcquire, SendEvent.lockRelease]
       | .recvOk .empty => [SendEvent.lockRelease]
       | .recvOk .badJson => [SendEvent.parseResponse, SendEvent.lockRelease]
       | .recvOk (.json _) => [SendEvent.parseResponse, SendEvent.lockRelease])

/-- A concrete environment with trivial oracles, used to instantiate
universally quantified theorems at specific inputs. -/
def defaultEnv : BlenderEnv :=
  { exec_output := fun _ => .ok ""
    scene_info := [("scene_name", .vstr "Scene"), ("object_count", .vnum 0),
                   ("active_object", .vnull), ("selected_objects", .varr []),
                   ("mode", .vstr "OBJECT")]
    blender_version := "5.0.0"
    context_info := [("active_window_type", .vstr "N/A"),
                     ("active_screen_name", .vstr "N/A"), ("mode", .vstr "OBJECT")]
    draw_effects := fun _ => .ok ()
    render_result := fun _ => .ok "/tmp/render_frame_1.png"
    math := { pi := 0, cos := fun _ => 0, sin := fun _ => 0 } }

/-- The default circle center `(0, 0, 0)` (addon.py line 262). -/
def defaultCenter : Value := .varr [.vnum 0, .vnum 0, .vnum 0]

/-- The success message of `handle_draw_stroke` (addon.py line 250) for
`n` points on layer `L`. -/
def strokeSuccessMsg (n : ℕ) (L : String) : String :=
  "Stroke with " ++ toString n ++ " points drawn on layer \x27" ++ L ++ "\x27."

/-- A `draw_circle` payload with an explicit integer `segments` value. -/
def circlePayloadSeg (L : String) (cv : Value) (r : ℚ) (s : ℕ) : Value :=
  .vobj [("layer_name", .vstr L), ("color", cv),
         ("radius", .vnum r), ("segments", .vnum (s : ℚ))]

/-- A `draw_circle` payload without a `segments` key (default 64). -/
def circlePayloadNoSeg (L : String) (cv : Value) (r : ℚ) : Value :=
  .vobj [("layer_name", .vstr L), ("color", cv), ("radius", .vnum r)]

/-- The stroke payload `handle_draw_circle` constructs for
`handle_draw_stroke` (addon.py lines 280-285), when `clear_layer` is
absent from the circle payload. -/
def strokePayloadOf (L : String) (cv : Value) (pts : List Value) : Value :=
  .vobj [("layer_name", .vstr L), ("color", cv),
         ("points", .varr pts), ("clear_layer", .vbool false)]

/-- The event trace of a `_send_blender_command` call whose round trip
succeeds (connection up, response received and parsed). -/
def sendSuccessTrace : List SendEvent :=
  [SendEvent.ensureConnectionCall, SendEvent.lockAcquire, SendEvent.sendBytes,
   SendEvent.recvBytes, SendEvent.parseResponse, SendEvent.lockRelease]

end Mindraw

namespace Mindraw

/-! ## Helper lemmas -/

/-- Reduction of `>>=` on a successful `Except` computation. -/
theorem except_ok_bind {ε α β : Type} (a : α) (f : α → Except ε β) :
    (Except.ok a >>= f : Except ε β) = f a := rfl

/-- Python `all(k in payload for k in keys)` on a dict payload is the
conjunction of the key tests. -/
theorem pyAllContains_vobj (fs : List (String × Value)) (keys : List String) :
    pyAllContains (.vobj fs) keys = .ok (keys.all (hasKey fs)) := by
  induction keys with
  | nil => rfl
  | cons k ks ih =>
      show (pyContains (.vobj fs) k >>= fun b =>
        if b then pyAllContains (.vobj fs) ks else pure false) = _
      cases h : hasKey fs k
      · simp [pyContains, h, except_ok_bind]
        rfl
      · simp [pyContains, h, ih, except_ok_bind]

/-- Evaluating `mapM` over `Except` of a function that succeeds on every element
of the list. -/
theorem mapM_ok_of {α β : Type} (l : List α) (f : α → Except String β) (g : α → β)
    (h : ∀ a ∈ l, f a = .ok (g a)) : l.mapM f = .ok (l.map g) := by
  induction l with
  | nil => rfl
  | cons a l ih =>
      rw [List.mapM_cons, h a (List.mem_cons_self a l),
        ih (fun b hb => h b (List.mem_cons_of_mem a hb))]
      rfl

/-- The success path of `handle_draw_stroke`: all required keys present,
a nonempty point list, and drawing succeeding on the external state. -/
theorem handle_draw_stroke_ok (env : BlenderEnv) (fs : List (String × Value))
    (L : String) (ps : List Value)
    (hall : drawStrokeRequiredKeys.all (hasKey fs) = true)
    (hpts : dictGet fs "points" = some (.varr ps))
    (hlayer : dictGet fs "layer_name" = some (.vstr L))
    (hps : ps ≠ [])
    (heff : env.draw_effects (.vobj fs) = .ok ()) :
    handle_draw_stroke env (.vobj fs) =
      .ok [("message", .vstr (strokeSuccessMsg ps.length L))] := by
  have hne : ps.isEmpty = false := by simpa [List.isEmpty_iff] using hps
  simp [handle_draw_stroke, pyAllContains_vobj, hall, pySubscript, hpts, hlayer,
    pyTruthy, hne, heff, pyLen, strokeSuccessMsg, pyStr, except_ok_bind]

/-- The point list `handle_draw_circle` generates for the default center
`(0,0,0)` and default pressure/strength, for a nonzero integer
`segments` value. -/
theorem circlePoints_ok (M : MathModel) (r : ℚ) (seg : ℤ) (hseg : ¬ seg = 0) :
    circlePoints M defaultCenter (.vnum r) (.vnum 1) (.vnum 1) seg =
      .ok ((pyRange (seg + 1)).map (fun (i : ℤ) => Value.vobj
        [("x", .vnum (0 + r * M.cos (2 * M.pi * (i : ℚ) / (seg : ℚ)))),
         ("y", .vnum 0),
         ("z", .vnum (0 + r * M.sin (2 * M.pi * (i : ℚ) / (seg : ℚ)))),
         ("pressure", .vnum 1), ("strength", .vnum 1)])) := by
  apply mapM_ok_of
  intro i _
  simp [circlePoint, hseg, defaultCenter, pyIndex, pyNum, except_ok_bind]

/-- Length of the generated index range. -/
theorem pyRange_length (n : ℤ) : (pyRange n).length = n.toNat := by
  rw [pyRange, List.length_map, List.length_range]

/-! ## C1 — client send-failure handling -/

/-- C1 counterexample: with an established connection, an empty response
from Blender makes `_send_blender_command` return the synthesized error
envelope, but — contrary to the claim — it does NOT mark the connection
state `connected=false`: the flag is still `true` afterwards.  (The
`json.JSONDecodeError` path behaves the same way.) -/
theorem c1_counterexample :
    (send_blender_command true { socket_connected := true, blender_socket := true }
        (.recvOk .empty)).2 = errEnv "Received empty response from Blender." ∧
    ¬ (send_blender_command true { socket_connected := true, blender_socket := true }
        (.recvOk .empty)).1.socket_connected = false ∧
    ¬ (send_blender_command true { socket_connected := true, blender_socket := true }
        (.recvOk .badJson)).1.socket_connected = false := by
  refine ⟨rfl, ?_, ?_⟩ <;> decide

/-- C1 amended: on every failure of the round trip (timeout, socket
error, JSON decode failure, empty response) `_send_blender_command`
returns a synthesized error Response Envelope instead of raising; it
marks `connected=false` on a socket timeout and on other socket errors,
but leaves the flag untouched on a JSON decode failure or an empty
response. -/
theorem c1_send_failure_envelopes (st : ConnState) (m : String) :
    send_blender_command true st .timeout =
      ({ socket_connected := false, blender_socket := true },
        errEnv "Timeout: Blender addon did not respond.") ∧
    send_blender_command true st (.sockErr m) =
      ({ socket_connected := false, blender_socket := true }, errEnv m) ∧
    send_blender_command true st (.recvOk .empty) =
      ({ socket_connected := true, blender_socket := true },
        errEnv "Received empty response from Blender.") ∧
    send_blender_command true st (.recvOk .badJson) =
      ({ socket_connected := true, blender_socket := true },
        errEnv "Failed to decode JSON response from Blender.") := by
  rcases st with ⟨sc, bs⟩
  cases sc <;> cases bs <;> exact ⟨rfl, rfl, rfl, rfl⟩

/-- C1 witness: the amended theorem evaluated at a connected state and a
reset-style socket error. -/
theorem c1_send_failure_envelopes_witness :
    send_blender_command true { socket_connected := true, blender_socket := true }
        (.sockErr "Connection reset by peer") =
      ({ socket_connected := false, blender_socket := true },
        errEnv "Connection reset by peer") :=
  (c1_send_failure_envelopes
    { socket_connected := true, blender_socket := true } "Connection reset by peer").2.1

/-! ## C2 — bind failure and `register()` -/

/-- C2 counterexample: when the bind fails with "address already in
use", `register()` still returns normally (no exception, `is_running`
set to `true`); the bind error is swallowed inside the accept thread,
which itself terminates without raising, leaving only a printed log
line. -/
theorem c2_counterexample :
    (register defaultEnv (.fail "[Errno 98] Address already in use") []).outcome =
      Except.ok true ∧
    (register defaultEnv (.fail "[Errno 98] Address already in use") []).thread.raised =
      false := ⟨rfl, rfl⟩

/-- C2 amended: `register()` spawns the accept thread and returns
normally at once, regardless of the bind outcome and without waiting for
the listener to come up; a bind failure is caught inside
`socket_server_thread`, which exits without raising after printing the
error. -/
theorem c2_register_swallows_bind_failure (env : BlenderEnv) (m : String)
    (iters : List AcceptEvent) :
    (register env (.fail m) iters).outcome = Except.ok true ∧
    (register env (.fail m) iters).thread.raised = false ∧
    (register env (.fail m) iters).thread.log =
      ["[MindDraw] Socket server error: " ++ m, "[MindDraw] Socket server stopped"] ∧
    (∀ bind : BindOutcome, (register env bind iters).outcome = Except.ok true) :=
  ⟨rfl, rfl, rfl, fun _ => rfl⟩

/-! ## C3 — `unregister()` stop sequence -/

/-- C3 counterexample: `unregister()` never closes the listening socket
— the claimed close-to-unblock-accept step does not occur in its event
trace (the listening socket lives inside the `with` block of the accept
thread, and the `server_socket` global is never assigned). -/
theorem c3_counterexample :
    UnregEvent.closeListeningSocket ∉ (unregister true true).1 ∧
    UnregEvent.closeListeningSocket ∉ (unregister true false).1 ∧
    server_socket = none := by
  refine ⟨by decide, by decide, rfl⟩

/-- C3 amended: `unregister()` first sets the running flag to false,
then (if the accept thread is alive) joins it with a 2-second timeout,
prints a non-fatal warning exactly when the thread fails to stop in
time, and always returns normally; it never closes the listening
socket. -/
theorem c3_unregister_sequence (threadAlive stopsInTime : Bool) :
    (unregister threadAlive stopsInTime).1.head? = some UnregEvent.setRunningFalse ∧
    (unregister threadAlive stopsInTime).2 = true ∧
    (UnregEvent.joinThread 2 ∈ (unregister threadAlive stopsInTime).1 ↔
      threadAlive = true) ∧
    (UnregEvent.warnNotStopped ∈ (unregister threadAlive stopsInTime).1 ↔
      (threadAlive = true ∧ stopsInTime = false)) ∧
    UnregEvent.closeListeningSocket ∉ (unregister threadAlive stopsInTime).1 := by
  cases threadAlive <;> cases stopsInTime <;> refine ⟨rfl, rfl, ?_, ?_, ?_⟩ <;> decide

/-! ## C4 — lock discipline of the client send -/

/-- C4 counterexample: on a successful round trip the connection lock is
acquired only AFTER `ensure_connection()` has already been invoked — the
first lock acquisition does not precede the `ensure_connection` call in
the event trace of `_send_blender_command`. -/
theorem c4_counterexample :
    ¬ ((sendCommandTrace true { socket_connected := true, blender_socket := true }
          (.recvOk (.json .vnull))).indexOf SendEvent.lockAcquire <
        (sendCommandTrace true { socket_connected := true, blender_socket := true }
          (.recvOk (.json .vnull))).indexOf SendEvent.ensureConnectionCall) := by
  decide

/-- C4 amended: `_send_blender_command` invokes `ensure_connection()`
first (outside the lock) and only then acquires `socket_lock`, holding
it across the send, the blocking receive and the parse of the response;
so the serialized region covers the wire round trip but not the
`ensure_connection` call. -/
theorem c4_lock_after_ensure (st : ConnState) (v : Value) :
    sendCommandTrace true st (.recvOk (.json v)) = sendSuccessTrace ∧
    sendSuccessTrace.indexOf SendEvent.ensureConnectionCall <
      sendSuccessTrace.indexOf SendEvent.lockAcquire ∧
    sendSuccessTrace.indexOf SendEvent.lockAcquire <
      sendSuccessTrace.indexOf SendEvent.sendBytes ∧
    sendSuccessTrace.indexOf SendEvent.sendBytes <
      sendSuccessTrace.indexOf SendEvent.recvBytes ∧
    sendSuccessTrace.indexOf SendEvent.recvBytes <
      sendSuccessTrace.indexOf SendEvent.parseResponse ∧
    sendSuccessTrace.indexOf SendEvent.parseResponse <
      sendSuccessTrace.indexOf SendEvent.lockRelease := by
  rcases st with ⟨sc, bs⟩
  refine ⟨?_, by decide, by decide, by decide, by decide, by decide⟩
  cases sc <;> cases bs <;> rfl

/-! ## C5 — one response per message, errors never end the session -/

/-- C5: the session handler produces exactly one Response Envelope per
received message, in order and before the next read; a non-JSON byte
sequence yields a `status=error` envelope and the loop continues, so the
remaining messages on the same connection — in particular a subsequent
valid one — are still serviced. -/
theorem c5_session_one_response_per_message (env : BlenderEnv) (m : InMsg)
    (msgs rest : List InMsg) :
    (handle_client env msgs).length = msgs.length ∧
    handle_client env (m :: rest) = processMessage env m :: handle_client env rest ∧
    processMessage env .badJson = errEnv "Invalid JSON format received." ∧
    handle_client env (.badJson :: rest) =
      errEnv "Invalid JSON format received." :: handle_client env rest := by
  refine ⟨?_, rfl, rfl, rfl⟩
  simp [handle_client]

/-! ## C6 — unknown command -/

/-- C6: a Command Envelope whose command name is not a key of
`COMMAND_MAP` is answered with a `status=error` envelope whose
`error_message` embeds the literal command string; in particular
`{"command":"bogus"}` yields
a `status=error` envelope whose message embeds `bogus` in single quotes. -/
theorem c6_unknown_command (env : BlenderEnv) (fields : List (String × Value))
    (s : String)
    (hcmd : dictGet fields "command" = some (.vstr s))
    (hreg : COMMAND_MAP env s = none) :
    processMessage env (.json (.vobj fields)) =
      errEnv ("Unknown command: \x27" ++ s ++ "\x27") ∧
    processMessage env (.json (.vobj [("command", .vstr "bogus")])) =
      errEnv "Unknown command: \x27bogus\x27" := by
  constructor
  · simp [processMessage, hcmd, dispatch, commandLookup, hreg, pyStrOpt, pyStr]
  · rfl

/-- C6 witness: the unknown-command theorem evaluated on the
`{"command":"bogus"}` envelope. -/
theorem c6_unknown_command_witness :
    processMessage defaultEnv (.json (.vobj [("command", .vstr "bogus")])) =
      errEnv ("Unknown command: \x27" ++ "bogus" ++ "\x27") :=
  (c6_unknown_command defaultEnv [("command", .vstr "bogus")] "bogus" rfl rfl).1

/-! ## C7 — missing required payload keys -/

/-- C7: invoking `draw_stroke` with any of its required payload keys
absent raises the contract `ValueError`, which the session turns into a
`status=error` envelope; the message names the required-keys
contract of the handler and in particular cites both missing keys `color` and `points`.
Specifically, `{"command":"draw_stroke","payload":{"layer_name":"L"}}`
yields that error envelope. -/
theorem c7_missing_required_keys (env : BlenderEnv) (fields : List (String × Value))
    (hmiss : hasKey fields "layer_name" = false ∨ hasKey fields "color" = false ∨
      hasKey fields "points" = false) :
    handle_draw_stroke env (.vobj fields) = .error drawStrokeRequiredMsg ∧
    (∃ p₁ p₂ p₃, drawStrokeRequiredMsg = p₁ ++ "color" ++ p₂ ++ "points" ++ p₃) ∧
    processMessage env (.json (.vobj [("command", .vstr "draw_stroke"),
        ("payload", .vobj [("layer_name", .vstr "L")])])) =
      errEnv drawStrokeRequiredMsg := by
  refine ⟨?_, ⟨"Payload for \x27draw_stroke\x27 must contain [\x27layer_name\x27, \x27",
    "\x27, \x27", "\x27].", rfl⟩, rfl⟩
  have hall : drawStrokeRequiredKeys.all (hasKey fields) = false := by
    rcases hmiss with h | h | h <;> simp [drawStrokeRequiredKeys, h]
  simp [handle_draw_stroke, pyAllContains_vobj, hall, except_ok_bind]
  rfl

/-- C7 witness: the missing-keys theorem evaluated on a payload holding
only `layer_name`. -/
theorem c7_missing_required_keys_witness :
    handle_draw_stroke defaultEnv (.vobj [("layer_name", .vstr "L")]) =
      .error drawStrokeRequiredMsg ∧
    (∃ p₁ p₂ p₃, drawStrokeRequiredMsg = p₁ ++ "color" ++ p₂ ++ "points" ++ p₃) ∧
    processMessage defaultEnv (.json (.vobj [("command", .vstr "draw_stroke"),
        ("payload", .vobj [("layer_name", .vstr "L")])])) =
      errEnv drawStrokeRequiredMsg :=
  c7_missing_required_keys defaultEnv [("layer_name", .vstr "L")] (Or.inr (Or.inl rfl))

/-! ## C8 — missing `payload` and missing `command` -/

/-- C8: a valid JSON Command Envelope without a `"payload"` key is
dispatched with the empty mapping as payload, and a valid JSON object
without a `"command"` key is answered with exactly
`Unknown command:` followed by quoted `None` — the missing command is formatted as the
`None` value rather than reported as a distinct protocol fault. -/
theorem c8_missing_envelope_fields (env : BlenderEnv)
    (fields fields2 : List (String × Value))
    (hnp : dictGet fields "payload" = none)
    (hnc : dictGet fields2 "command" = none) :
    processMessage env (.json (.vobj fields)) =
      dispatch env (dictGet fields "command") (.vobj []) ∧
    processMessage env (.json (.vobj fields2)) =
      errEnv ("Unknown command: \x27" ++ "None" ++ "\x27") := by
  constructor
  · simp [processMessage, hnp]
  · simp [processMessage, hnc, dispatch, commandLookup, pyStrOpt]

/-- C8 witness: the theorem evaluated on `{"command":"get_blender_info"}`
(no payload) and on `{"payload":{}}` (no command). -/
theorem c8_missing_envelope_fields_witness :
    processMessage defaultEnv (.json (.vobj [("command", .vstr "get_blender_info")])) =
      dispatch defaultEnv (dictGet [("command", .vstr "get_blender_info")] "command")
        (.vobj []) ∧
    processMessage defaultEnv (.json (.vobj [("payload", .vobj [])])) =
      errEnv ("Unknown command: \x27" ++ "None" ++ "\x27") :=
  c8_missing_envelope_fields defaultEnv [("command", .vstr "get_blender_info")]
    [("payload", .vobj [])] rfl rfl

/-! ## C9 — empty point list -/

/-- C9: a `draw_stroke` payload with all three required keys whose
`points` value is the empty list succeeds without drawing, returning the
mapping `{"status": "success", "message": "No points provided, nothing
to draw."}` as the `data` field of the envelope — a shape with an extra `"status"`
key, unlike the `{message}`-only result returned for nonempty point
lists. -/
theorem c9_empty_points_result (env : BlenderEnv) (lv cv : Value) :
    handle_draw_stroke env
        (.vobj [("layer_name", lv), ("color", cv), ("points", .varr [])]) =
      .ok [("status", .vstr "success"),
           ("message", .vstr "No points provided, nothing to draw.")] ∧
    processMessage env (.json (.vobj [("command", .vstr "draw_stroke"),
        ("payload", .vobj [("layer_name", lv), ("color", cv), ("points", .varr [])])])) =
      okEnv [("status", .vstr "success"),
             ("message", .vstr "No points provided, nothing to draw.")] ∧
    (∀ (L : String) (ps : List Value), ps ≠ [] →
      (∀ p, env.draw_effects p = Except.ok ()) →
      handle_draw_stroke env
          (.vobj [("layer_name", .vstr L), ("color", cv), ("points", .varr ps)]) =
        .ok [("message", .vstr (strokeSuccessMsg ps.length L))]) := by
  refine ⟨?_, ?_, ?_⟩
  · simp [handle_draw_stroke, pyAllContains_vobj, drawStrokeRequiredKeys, hasKey,
      pySubscript, dictGet, pyTruthy, except_ok_bind]
    rfl
  · simp [processMessage, dictGet, dispatch, commandLookup, COMMAND_MAP, okEnv,
      handle_draw_stroke, pyAllContains_vobj, drawStrokeRequiredKeys, hasKey,
      pySubscript, pyTruthy, except_ok_bind]
    rfl
  · intro L ps hps henv
    apply handle_draw_stroke_ok env _ L ps _ _ _ hps (henv _)
    · simp [drawStrokeRequiredKeys, hasKey]
    · simp [dictGet]
    · simp [dictGet]

/-- C9 witness: the theorem evaluated at a concrete payload — the empty
list gives the two-key result shape, a one-point list the
`{message}`-only shape. -/
theorem c9_empty_points_result_witness :
    handle_draw_stroke defaultEnv
        (.vobj [("layer_name", .vstr "L"), ("color", .varr [.vnum 1]),
                ("points", .varr [])]) =
      .ok [("status", .vstr "success"),
           ("message", .vstr "No points provided, nothing to draw.")] ∧
    handle_draw_stroke defaultEnv
        (.vobj [("layer_name", .vstr "L"), ("color", .varr [.vnum 1]),
                ("points", .varr [.vobj [("x", .vnum 0)]])]) =
      .ok [("message", .vstr (strokeSuccessMsg 1 "L"))] :=
  ⟨(c9_empty_points_result defaultEnv (.vstr "L") (.varr [.vnum 1])).1,
   (c9_empty_points_result defaultEnv (.vstr "L") (.varr [.vnum 1])).2.2 "L"
     [.vobj [("x", .vnum 0)]] (List.cons_ne_nil _ _) (fun _ => rfl)⟩

/-! ## C10 — draw_circle delegates to draw_stroke -/

/-- C10: for a `draw_circle` payload with the required keys, a numeric
radius and a positive integer `segments` value `s`, the handler returns
exactly `handle_draw_stroke` applied to the constructed payload with the
same `layer_name`, `color` and `clear_layer` and the `s + 1` generated
circle points, so the success message reports `s + 1` points drawn — and
65 points when `segments` is absent (default 64). -/
theorem c10_draw_circle_refines_stroke (env : BlenderEnv)
    (henv : ∀ p, env.draw_effects p = Except.ok ())
    (L : String) (cv : Value) (r : ℚ) (s : ℕ) (hs : 0 < s) :
    ∃ pts : List Value,
      circlePoints env.math defaultCenter (.vnum r) (.vnum 1) (.vnum 1) (s : ℤ) =
        .ok pts ∧
      pts.length = s + 1 ∧
      handle_draw_circle env (circlePayloadSeg L cv r s) =
        handle_draw_stroke env (strokePayloadOf L cv pts) ∧
      handle_draw_circle env (circlePayloadSeg L cv r s) =
        .ok [("message", .vstr (strokeSuccessMsg (s + 1) L))] ∧
      handle_draw_circle env (circlePayloadNoSeg L cv r) =
        .ok [("message", .vstr (strokeSuccessMsg 65 L))] := by
  have hsz : ¬ (s : ℤ) = 0 := by exact_mod_cast hs.ne'
  have hpts := circlePoints_ok env.math r (s : ℤ) hsz
  have hpts' := hpts
  rw [defaultCenter] at hpts'
  refine ⟨_, hpts, ?_, ?_, ?_, ?_⟩
  · rw [List.length_map, pyRange_length]
    omega
  · simp [handle_draw_circle, circlePayloadSeg, strokePayloadOf, pyAllContains_vobj,
      drawCircleRequiredKeys, hasKey, pyGet, dictGet, pySubscript, pyToInt,
      except_ok_bind, hpts']
  · have hlen : ((pyRange ((s : ℤ) + 1)).map (fun (i : ℤ) => Value.vobj
        [("x", .vnum (0 + r * env.math.cos (2 * env.math.pi * (i : ℚ) / ((s : ℤ) : ℚ)))),
         ("y", .vnum 0),
         ("z", .vnum (0 + r * env.math.sin (2 * env.math.pi * (i : ℚ) / ((s : ℤ) : ℚ)))),
         ("pressure", .vnum 1), ("strength", .vnum 1)])).length = s + 1 := by
      rw [List.length_map, pyRange_length]
      omega
    have hne : ((pyRange ((s : ℤ) + 1)).map (fun (i : ℤ) => Value.vobj
        [("x", .vnum (0 + r * env.math.cos (2 * env.math.pi * (i : ℚ) / ((s : ℤ) : ℚ)))),
         ("y", .vnum 0),
         ("z", .vnum (0 + r * env.math.sin (2 * env.math.pi * (i : ℚ) / ((s : ℤ) : ℚ)))),
         ("pressure", .vnum 1), ("strength", .vnum 1)])) ≠ [] := by
      intro h
      rw [h] at hlen
      simp at hlen
    have hstroke := handle_draw_stroke_ok env
      [("layer_name", .vstr L), ("color", cv),
       ("points", .varr ((pyRange ((s : ℤ) + 1)).map (fun (i : ℤ) => Value.vobj
         [("x", .vnum (0 + r * env.math.cos (2 * env.math.pi * (i : ℚ) / ((s : ℤ) : ℚ)))),
          ("y", .vnum 0),
          ("z", .vnum (0 + r * env.math.sin (2 * env.math.pi * (i : ℚ) / ((s : ℤ) : ℚ)))),
          ("pressure", .vnum 1), ("strength", .vnum 1)]))),
       ("clear_layer", .vbool false)] L _
      (by simp [drawStrokeRequiredKeys, hasKey]) (by simp [dictGet]) (by simp [dictGet])
      hne (henv _)
    rw [hlen] at hstroke
    simp [handle_draw_circle, circlePayloadSeg, pyAllContains_vobj,
      drawCircleRequiredKeys, hasKey, pyGet, dictGet, pySubscript, pyToInt,
      except_ok_bind, hpts']
    simpa [strokePayloadOf] using hstroke
  · have hsz64 : ¬ (64 : ℤ) = 0 := by decide
    have hpts64 := circlePoints_ok env.math r 64 hsz64
    rw [defaultCenter] at hpts64
    have hlen64 : ((pyRange ((64 : ℤ) + 1)).map (fun (i : ℤ) => Value.vobj
        [("x", .vnum (0 + r * env.math.cos (2 * env.math.pi * (i : ℚ) / ((64 : ℤ) : ℚ)))),
         ("y", .vnum 0),
         ("z", .vnum (0 + r * env.math.sin (2 * env.math.pi * (i : ℚ) / ((64 : ℤ) : ℚ)))),
         ("pressure", .vnum 1), ("strength", .vnum 1)])).length = 65 := by
      rw [List.length_map, pyRange_length]
      rfl
    have hne64 : ((pyRange ((64 : ℤ) + 1)).map (fun (i : ℤ) => Value.vobj
        [("x", .vnum (0 + r * env.math.cos (2 * env.math.pi * (i : ℚ) / ((64 : ℤ) : ℚ)))),
         ("y", .vnum 0),
         ("z", .vnum (0 + r * env.math.sin (2 * env.math.pi * (i : ℚ) / ((64 : ℤ) : ℚ)))),
         ("pressure", .vnum 1), ("strength", .vnum 1)])) ≠ [] := by
      intro h
      rw [h] at hlen64
      simp at hlen64
    have hstroke := handle_draw_stroke_ok env
      [("layer_name", .vstr L), ("color", cv),
       ("points", .varr ((pyRange ((64 : ℤ) + 1)).map (fun (i : ℤ) => Value.vobj
         [("x", .vnum (0 + r * env.math.cos (2 * env.math.pi * (i : ℚ) / ((64 : ℤ) : ℚ)))),
          ("y", .vnum 0),
          ("z", .vnum (0 + r * env.math.sin (2 * env.math.pi * (i : ℚ) / ((64 : ℤ) : ℚ)))),
          ("pressure", .vnum 1), ("strength", .vnum 1)]))),
       ("clear_layer", .vbool false)] L _
      (by simp [drawStrokeRequiredKeys, hasKey]) (by simp [dictGet]) (by simp [dictGet])
      hne64 (henv _)
    rw [hlen64] at hstroke
    simp [handle_draw_circle, circlePayloadNoSeg, pyAllContains_vobj,
      drawCircleRequiredKeys, hasKey, pyGet, dictGet, pySubscript, pyToInt,
      except_ok_bind, hpts64]
    simpa using hstroke

/-- C10 witness: the refinement theorem evaluated at the default
segments count (64) and an explicit segments value, with a trivial
drawing oracle — the success message reports 65 points. -/
theorem c10_draw_circle_refines_stroke_witness :
    (0 : ℕ) < 64 ∧
    ∃ pts : List Value,
      circlePoints defaultEnv.math defaultCenter (.vnum 2) (.vnum 1) (.vnum 1)
          ((64 : ℕ) : ℤ) = .ok pts ∧
      pts.length = 64 + 1 ∧
      handle_draw_circle defaultEnv (circlePayloadSeg "L" (.varr [.vnum 1]) 2 64) =
        handle_draw_stroke defaultEnv (strokePayloadOf "L" (.varr [.vnum 1]) pts) ∧
      handle_draw_circle defaultEnv (circlePayloadSeg "L" (.varr [.vnum 1]) 2 64) =
        .ok [("message", .vstr (strokeSuccessMsg (64 + 1) "L"))] ∧
      handle_draw_circle defaultEnv (circlePayloadNoSeg "L" (.varr [.vnum 1]) 2) =
        .ok [("message", .vstr (strokeSuccessMsg 65 "L"))] :=
  ⟨by decide, c10_draw_circle_refines_stroke defaultEnv (fun _ => rfl) "L"
    (.varr [.vnum 1]) 2 64 (by decide)⟩

end Mindraw
